import Mathlib

/-
Verification of the track-resolution and import-orchestration core of
`spotify_to_tidal.py` (a Spotify-CSV → TIDAL playlist importer).

Shallow embedding conventions:
* The TIDAL session (`tidalapi.Session` plus the playlist objects it
  produces) is modelled as a record of pure oracle functions, one per
  network call the core makes.  A call either returns a value or raises:
  `Except PyErr` distinguishes Python's `Exception` class (caught by the
  source's `except Exception` handlers) from `KeyboardInterrupt` (which
  those handlers do not catch, since it derives from `BaseException`).
* Side effects (network calls, `time.sleep`, user prompts) are recorded
  in an explicit `Event` trace returned alongside each function's value;
  on a raised error the trace holds the events performed before the raise.
* User input is a list of `Answer`s, one per `input()` call; an exhausted
  list models end-of-input (`EOFError`).  `Answer.interrupt` models a
  `KeyboardInterrupt` raised while the prompt is being read.
* The embedding fixes the configuration in which the optional third-party
  libraries (`rich`, `pygame`, `term_image`) are absent, so prompts follow
  the plain-`input()` code paths and the cover-art / preview collaborators
  are the no-op fallbacks.  This only removes rendering, never logic.
* `time.sleep` durations (Python floats 0.3 and 0.2) are modelled as the
  exact rationals 3/10 and 1/5; no floating-point arithmetic is performed
  on them in the source, they are only passed to `sleep`.
-/

set_option autoImplicit false

namespace SpotifyToTidal

/-- Python exception classes, as coarse as the source's handlers need:
`exc` is any `Exception` (message attached), `keyboardInterrupt` is
`KeyboardInterrupt`, which `except Exception` does not catch. -/
inductive PyErr where
  | exc (msg : String)
  | keyboardInterrupt
  deriving DecidableEq, Repr

/-- One line of user input: either text typed at an `input()` call, or a
`KeyboardInterrupt` raised while the line was being read. -/
inductive Answer where
  | text (raw : String)
  | interrupt
  deriving DecidableEq, Repr

/-- A TIDAL track as the core uses it: an id (`track.id`), a display name
and a display artist (`track.name`, `track.artist.name`). -/
structure TidalTrack where
  id : Nat
  name : String
  artist : String
  deriving DecidableEq, Repr

/-- `SpotifyTrack` dataclass (source lines 105–117). -/
structure SpotifyTrack where
  name : String
  artists : String
  album : String
  isrc : String
  preview_url : String
  image_url : String
  duration_ms : Nat
  explicit : Bool
  deriving DecidableEq, Repr

/-- The status strings used by `ImportResult` (source line 124):
`"pending" | "added" | "skipped" | "not_found"`. -/
inductive Status where
  | pending
  | added
  | skipped
  | not_found
  deriving DecidableEq, Repr

/-- `ImportResult` dataclass (source lines 120–124). -/
structure ImportResult where
  spotify_track : SpotifyTrack
  tidal_track : Option TidalTrack
  status : Status
  deriving DecidableEq, Repr

/-- Observable side effects of the core, in execution order. -/
inductive Event where
  | isrcLookup (code : String)
  | sleep (seconds : ℚ)
  | textSearch (query : String) (limit : Nat)
  | prompt (text : String)
  | createPlaylist (name description : String)
  | batchAdd (ids : List Nat)
  | singleAdd (id : Nat)
  deriving DecidableEq, Repr

/-- The destination-catalog boundary: one pure oracle per network call.
`get_tracks_by_isrc` and `search` may raise either exception class.
`create_playlist` may raise an `Exception` (message returned as the
error).  `playlist.add` outcomes are modelled as success booleans, since
the source catches exactly `Exception` around them and no claim concerns
a `KeyboardInterrupt` raised inside an add call. -/
structure Session where
  get_tracks_by_isrc : String → Except PyErr (List TidalTrack)
  search : String → Nat → Except PyErr (List TidalTrack)
  create_playlist : String → String → Except String Unit
  batch_add : List Nat → Bool
  single_add : Nat → Bool

/-- The created playlist, as far as the core observes it: name, the
generated description, and the ids that ended up added. -/
structure Playlist where
  name : String
  description : String
  tracks : List Nat
  deriving DecidableEq, Repr

/-- Default of the `retry_delay` parameter of `find_tidal_track`
(source line 219: `retry_delay: float = 0.3`), i.e. 3/10 of a second,
written as a normalized rational so that it evaluates by `decide`. -/
def DEFAULT_RETRY_DELAY : ℚ := Rat.mk' 3 10

/-- Delay slept after each successful individual add in the materializer
fallback (source line 561: `time.sleep(0.2)`), i.e. 1/5 of a second. -/
def MATERIALIZER_DELAY : ℚ := Rat.mk' 1 5

/-- The text-search query string (source line 238):
`f"{track.name} {track.artists.split(',')[0]}"`. -/
def track_query (track : SpotifyTrack) : String :=
  track.name ++ " " ++ ((track.artists.splitOn ",").headD "")

/-- `find_tidal_track` (source lines 216–247).  Step 1: if the ISRC is
non-empty, look it up; a non-empty result list returns its first element
immediately; an empty result or a caught `Exception` falls through; a
`KeyboardInterrupt` propagates.  Step 2: `time.sleep(retry_delay)`, then
a text search with limit 5; the first hit is returned, an empty hit list
or a caught `Exception` yields `none`. -/
def find_tidal_track (s : Session) (track : SpotifyTrack) (retry_delay : ℚ) :
    Except PyErr (Option TidalTrack) × List Event :=
  let isrcEvents : List Event :=
    if track.isrc = "" then [] else [Event.isrcLookup track.isrc]
  let isrcOutcome : Except PyErr (Option TidalTrack) :=
    if track.isrc = "" then Except.ok none
    else
      match s.get_tracks_by_isrc track.isrc with
      | Except.ok results => Except.ok results.head?
      | Except.error PyErr.keyboardInterrupt => Except.error PyErr.keyboardInterrupt
      | Except.error (PyErr.exc _) => Except.ok none
  match isrcOutcome with
  | Except.error e => (Except.error e, isrcEvents)
  | Except.ok (some t) => (Except.ok (some t), isrcEvents)
  | Except.ok none =>
    let q := track_query track
    let evs := isrcEvents ++ [Event.sleep retry_delay, Event.textSearch q 5]
    match s.search q 5 with
    | Except.ok hits => (Except.ok hits.head?, evs)
    | Except.error PyErr.keyboardInterrupt => (Except.error PyErr.keyboardInterrupt, evs)
    | Except.error (PyErr.exc _) => (Except.ok none, evs)

/-- Python `str.strip()` (whitespace from both ends), written
structurally over the character list so it evaluates by `rfl`. -/
def pyStrip (s : String) : String :=
  String.mk
    (((s.data.dropWhile Char.isWhitespace).reverse.dropWhile
        Char.isWhitespace).reverse)

/-- Python `str.lower()`, written structurally. -/
def pyLower (s : String) : String := String.mk (s.data.map Char.toLower)

/-- Python `str.replace(old, new)` for the single-character patterns the
source uses (`"_"` and `"-"` to `" "`), written structurally. -/
def pyReplaceChar (a b : Char) (s : String) : String :=
  String.mk (s.data.map (fun c => if c = a then b else c))

/-- The decision `_ask_yes_no` makes from one read line (source lines
728–731): strip, empty means the default, otherwise the answer is yes
exactly when the lowercased text is `y` or `yes`; a `KeyboardInterrupt`
while reading returns the default (line 732). -/
def yes_no_answer (dflt : Bool) (a : Answer) : Bool :=
  match a with
  | Answer.interrupt => dflt
  | Answer.text raw =>
    let r := pyStrip raw
    if r = "" then dflt else (pyLower r = "y" || pyLower r = "yes")

/-- `_ask_yes_no` (source lines 720–733).  Consumes exactly one answer;
an exhausted input stream models `EOFError`, which the handler at line
732 also converts to the default. -/
def _ask_yes_no (dflt : Bool) : List Answer → Bool × List Answer
  | [] => (dflt, [])
  | a :: rest => (yes_no_answer dflt a, rest)

/-- `_ask_choice` (source lines 736–754): loop reading lines; an empty
line means the default; a line matching one of the choices
case-insensitively is returned lowercased; anything else reprompts;
`EOFError` / `KeyboardInterrupt` return the lowercased default. -/
def _ask_choice (choices : List String) (dflt : String) :
    List Answer → String × List Answer
  | [] => (pyLower dflt, [])
  | Answer.interrupt :: rest => (pyLower dflt, rest)
  | Answer.text raw :: rest =>
    let r := if pyStrip raw = "" then pyLower dflt else pyLower (pyStrip raw)
    if (choices.map pyLower).contains r then (r, rest)
    else _ask_choice choices dflt rest

/-- The per-track body of `import_all`'s loop (source lines 450–457,
the plain-`print` branch; the `rich` branch at 440–448 performs the same
resolution and appends the same results, differing only in rendering):
resolve each track, status `"added"` exactly when a (truthy) track came
back, else `"not_found"`.  A `KeyboardInterrupt` escaping
`find_tidal_track` aborts the loop. -/
def resolve_all (s : Session) : List SpotifyTrack →
    Except PyErr (List ImportResult) × List Event
  | [] => (Except.ok [], [])
  | t :: ts =>
    match find_tidal_track s t DEFAULT_RETRY_DELAY with
    | (Except.error e, ev) => (Except.error e, ev)
    | (Except.ok tt, ev) =>
      let r : ImportResult :=
        ⟨t, tt, if tt.isSome then Status.added else Status.not_found⟩
      match resolve_all s ts with
      | (Except.error e, ev2) => (Except.error e, ev ++ ev2)
      | (Except.ok rs, ev2) => (Except.ok (r :: rs), ev ++ ev2)

/-- `add_one_by_one`: the fallback loop of `_create_and_populate_playlist`
(source lines 558–563): for each id in order, `playlist.add([tid])` then
`time.sleep(0.2)` inside one `try`; a caught `Exception` on the add skips
the sleep and only omits that id. -/
def add_one_by_one (s : Session) : List Nat → List Nat × List Event
  | [] => ([], [])
  | tid :: rest =>
    let step := add_one_by_one s rest
    if s.single_add tid then
      (tid :: step.1, Event.singleAdd tid :: Event.sleep MATERIALIZER_DELAY :: step.2)
    else
      (step.1, Event.singleAdd tid :: step.2)

/-- `_create_and_populate_playlist` (source lines 537–566): create the
playlist (description `"Imported from Spotify — N tracks"`), then, when
the id list is non-empty, try one batch `playlist.add(track_ids)`; on a
caught `Exception` fall back to `add_one_by_one`.  A failure of the
creation call itself is uncaught and propagates. -/
def playlist_description (track_ids : List Nat) : String :=
  "Imported from Spotify — " ++ toString track_ids.length ++ " tracks"

def _create_and_populate_playlist (s : Session) (name : String)
    (track_ids : List Nat) : Except String Playlist × List Event :=
  let desc := playlist_description track_ids
  match s.create_playlist name desc with
  | Except.error m => (Except.error m, [Event.createPlaylist name desc])
  | Except.ok _ =>
    match track_ids with
    | [] => (Except.ok ⟨name, desc, []⟩, [Event.createPlaylist name desc])
    | _ :: _ =>
      if s.batch_add track_ids then
        (Except.ok ⟨name, desc, track_ids⟩,
         [Event.createPlaylist name desc, Event.batchAdd track_ids])
      else
        let fb := add_one_by_one s track_ids
        (Except.ok ⟨name, desc, fb.1⟩,
         Event.createPlaylist name desc :: Event.batchAdd track_ids :: fb.2)

/-- `import_all` (source lines 422–463): resolve every track, then pass
`[r.tidal_track.id for r in results if r.tidal_track]` to
`_create_and_populate_playlist`.  An `Exception` from the materializer
propagates as a Python exception of the whole call. -/
def import_all (s : Session) (tracks : List SpotifyTrack)
    (playlist_name : String) :
    Except PyErr (List ImportResult × Playlist) × List Event :=
  match resolve_all s tracks with
  | (Except.error e, ev) => (Except.error e, ev)
  | (Except.ok results, ev) =>
    let track_ids := results.filterMap (fun r => r.tidal_track.map TidalTrack.id)
    match _create_and_populate_playlist s playlist_name track_ids with
    | (Except.ok pl, ev2) => (Except.ok (results, pl), ev ++ ev2)
    | (Except.error m, ev2) => (Except.error (PyErr.exc m), ev ++ ev2)

/-- Prompt text of the interactive confirmation (source line 519). -/
def addPromptText : String := "  Add to playlist?"

/-- The cover-art and preview phase of `import_individually`'s loop body
(source lines 500–510): one yes/no prompt per non-empty media URL.  The
renderer (`display_cover_art`) and player (`play_preview`) are external
collaborators; with the optional libraries absent they print and consume
nothing, so only the prompts remain observable. -/
def media_phase (track : SpotifyTrack) (ans : List Answer) :
    List Answer × List Event :=
  let cover :=
    if track.image_url = "" then (ans, ([] : List Event))
    else ((_ask_yes_no false ans).2, [Event.prompt "  Show cover art?"])
  if track.preview_url = "" then cover
  else ((_ask_yes_no false cover.1).2, cover.2 ++ [Event.prompt "  Play preview?"])

/-- One iteration of `import_individually`'s loop (source lines 476–528):
media prompts, then resolution; a match asks `"  Add to playlist?"`
(default yes) and yields `"added"` on confirmation, `"skipped"` on
refusal; no match yields `"not_found"` with no confirmation prompt. -/
def import_one (s : Session) (track : SpotifyTrack) (ans : List Answer) :
    Except PyErr ImportResult × List Answer × List Event :=
  let m := media_phase track ans
  match find_tidal_track s track DEFAULT_RETRY_DELAY with
  | (Except.error e, evF) => (Except.error e, m.1, m.2 ++ evF)
  | (Except.ok (some tt), evF) =>
    let a := _ask_yes_no true m.1
    (Except.ok ⟨track, some tt, if a.1 then Status.added else Status.skipped⟩,
     a.2, m.2 ++ evF ++ [Event.prompt addPromptText])
  | (Except.ok none, evF) =>
    (Except.ok ⟨track, none, Status.not_found⟩, m.1, m.2 ++ evF)

/-- The full per-track loop of `import_individually`. -/
def review_loop (s : Session) : List SpotifyTrack → List Answer →
    Except PyErr (List ImportResult) × List Answer × List Event
  | [], ans => (Except.ok [], ans, [])
  | t :: ts, ans =>
    match import_one s t ans with
    | (Except.error e, ans1, ev) => (Except.error e, ans1, ev)
    | (Except.ok r, ans1, ev) =>
      match review_loop s ts ans1 with
      | (Except.error e, ans2, ev2) => (Except.error e, ans2, ev ++ ev2)
      | (Except.ok rs, ans2, ev2) => (Except.ok (r :: rs), ans2, ev ++ ev2)

/-- `import_individually` (source lines 466–534): run the review loop,
then pass `[r.tidal_track.id for r in results if r.status == "added" and
r.tidal_track]` to `_create_and_populate_playlist`. -/
def import_individually (s : Session) (tracks : List SpotifyTrack)
    (playlist_name : String) (ans : List Answer) :
    Except PyErr (List ImportResult × Playlist) × List Answer × List Event :=
  match review_loop s tracks ans with
  | (Except.error e, ans1, ev) => (Except.error e, ans1, ev)
  | (Except.ok results, ans1, ev) =>
    let track_ids := results.filterMap (fun r =>
      if r.status = Status.added then r.tidal_track.map TidalTrack.id else none)
    match _create_and_populate_playlist s playlist_name track_ids with
    | (Except.ok pl, ev2) => (Except.ok (results, pl), ans1, ev ++ ev2)
    | (Except.error m, ev2) => (Except.error (PyErr.exc m), ans1, ev ++ ev2)

/-- Python `str.title()` restricted to ASCII letters: the first letter of
each letter-run is uppercased, later letters of the run lowercased. -/
def pyTitle (s : String) : String :=
  String.mk ((s.data.foldl
    (fun (acc : List Char × Bool) c =>
      (acc.1 ++ [if acc.2 then c.toLower else c.toUpper], c.isAlpha))
    ([], false)).1)

/-- `_csv_to_default_name` (source lines 572–574):
`path.stem.replace("_", " ").replace("-", " ").title()`. -/
def _csv_to_default_name (stem : String) : String :=
  pyTitle (pyReplaceChar '-' ' ' (pyReplaceChar '_' ' ' stem))

/-- `_prompt_playlist_name` (source lines 577–585), plain-`input` branch:
strip the line, an empty line gives the default.  Unlike the yes/no and
choice helpers, this `input()` is not wrapped in a handler, so
end-of-input (`EOFError`) and `KeyboardInterrupt` propagate. -/
def _prompt_playlist_name (dflt : String) :
    List Answer → Except PyErr String × List Answer
  | [] => (Except.error (PyErr.exc "EOFError"), [])
  | Answer.interrupt :: rest => (Except.error PyErr.keyboardInterrupt, rest)
  | Answer.text raw :: rest =>
    (Except.ok (if pyStrip raw = "" then dflt else pyStrip raw), rest)

/-- One CSV file discovered by the folder controller: its file name
(`csv_path.name`), its stem, and the outcome of `load_csv` on it —
`load_csv` is upstream parsing, outside the core, so only its outcome
(a track list, or the raised error's text) is modelled. -/
structure CsvEntry where
  name : String
  stem : String
  parse : Except String (List SpotifyTrack)

/-- Which of the three folder-summary lists one entry ends up in
(`imported_names` / `skipped_names` / `failed_entries`, source lines
630–632), with the recorded name and, for failures, the error text. -/
inductive EntryRecord where
  | importedRec (name : String)
  | skippedRec (name : String)
  | failedRec (name reason : String)
  deriving DecidableEq, Repr

/-- One iteration of `process_folder`'s loop (source lines 634–711):
parse failure → `failed` with the error text; zero tracks → `skipped`;
decline of the import prompt → `skipped`; otherwise name prompt, mode
choice (`_ask_import_mode`, i.e. `_ask_choice ["all","review"] "all"`,
source lines 588–602), the chosen import, and then: success records
`imported` and asks about opening the browser; a `KeyboardInterrupt`
from the import asks whether to continue — yes records the playlist
name under `skipped`, no re-raises; any other exception records the
playlist name and message under `failed`. -/
def process_entry (s : Session) (e : CsvEntry) (ans : List Answer) :
    Except PyErr EntryRecord × List Answer × List Event :=
  match e.parse with
  | Except.error msg => (Except.ok (EntryRecord.failedRec e.name msg), ans, [])
  | Except.ok [] => (Except.ok (EntryRecord.skippedRec e.name), ans, [])
  | Except.ok (t :: ts) =>
    let tracks := t :: ts
    let doImport := _ask_yes_no true ans
    if doImport.1 = false then
      (Except.ok (EntryRecord.skippedRec e.name), doImport.2, [])
    else
      match _prompt_playlist_name (_csv_to_default_name e.stem) doImport.2 with
      | (Except.error err, ans2) => (Except.error err, ans2, [])
      | (Except.ok pname, ans2) =>
        let mode := _ask_choice ["all", "review"] "all" ans2
        let run :
            Except PyErr (List ImportResult × Playlist) × List Answer × List Event :=
          if mode.1 = "review" then import_individually s tracks pname mode.2
          else ((import_all s tracks pname).1, mode.2, (import_all s tracks pname).2)
        match run with
        | (Except.ok _, ans4, ev) =>
          let openIt := _ask_yes_no false ans4
          (Except.ok (EntryRecord.importedRec pname), openIt.2, ev)
        | (Except.error PyErr.keyboardInterrupt, ans4, ev) =>
          let cont := _ask_yes_no true ans4
          if cont.1 then (Except.ok (EntryRecord.skippedRec pname), cont.2, ev)
          else (Except.error PyErr.keyboardInterrupt, cont.2, ev)
        | (Except.error (PyErr.exc m), ans4, ev) =>
          (Except.ok (EntryRecord.failedRec pname m), ans4, ev)

/-- The loop of `process_folder` with its three accumulator lists
(`imported_names`, `skipped_names`, `failed_entries`), each appended to
exactly once per processed entry; a propagating `KeyboardInterrupt`
aborts the loop (and in the source the summary is then never printed). -/
def process_folder_loop (s : Session) :
    List CsvEntry → List Answer → List String → List String →
    List (String × String) →
    Except PyErr (List String × List String × List (String × String))
  | [], _, imp, skp, fld => Except.ok (imp, skp, fld)
  | e :: es, ans, imp, skp, fld =>
    match process_entry s e ans with
    | (Except.error err, _, _) => Except.error err
    | (Except.ok rec, ans1, _) =>
      match rec with
      | EntryRecord.importedRec n => process_folder_loop s es ans1 (imp ++ [n]) skp fld
      | EntryRecord.skippedRec n => process_folder_loop s es ans1 imp (skp ++ [n]) fld
      | EntryRecord.failedRec n m => process_folder_loop s es ans1 imp skp (fld ++ [(n, m)])

/-- The folder summary (`print_folder_summary`'s arguments, source line
714): total CSV count discovered plus the three lists. -/
structure FolderReport where
  total : Nat
  imported : List String
  skipped : List String
  failed : List (String × String)
  deriving DecidableEq, Repr

/-- `process_folder` (source lines 605–714) over already-discovered
entries.  With no CSV files the source returns before any processing,
which is the empty report; otherwise the loop runs and the summary is
built from the accumulators and `len(csv_files)`. -/
def process_folder (s : Session) (entries : List CsvEntry)
    (ans : List Answer) : Except PyErr FolderReport :=
  match process_folder_loop s entries ans [] [] [] with
  | Except.error err => Except.error err
  | Except.ok (imp, skp, fld) => Except.ok ⟨entries.length, imp, skp, fld⟩

/-! ## Concrete fixtures used by witnesses and counterexamples -/

/-- A concrete destination-catalog track. -/
def sampleTidal : TidalTrack := ⟨101, "Song", "Artist"⟩

/-- A source track carrying a recording code. -/
def trackWithIsrc : SpotifyTrack :=
  ⟨"Song", "Artist,Other", "Alb", "USX17607839", "", "", 200000, false⟩

/-- A source track with no recording code. -/
def trackNoIsrc : SpotifyTrack :=
  ⟨"Song", "Artist,Other", "Alb", "", "", "", 200000, false⟩

/-- A session whose code lookup always hits `sampleTidal` and whose text
search returns nothing; playlist calls all succeed. -/
def hitSession : Session :=
  ⟨fun _ => Except.ok [sampleTidal], fun _ _ => Except.ok [],
   fun _ _ => Except.ok (), fun _ => true, fun _ => true⟩

/-- A session whose batch add always fails and whose individual add
fails exactly on id 1; lookups hit `sampleTidal`. -/
def fallbackSession : Session :=
  ⟨fun _ => Except.ok [sampleTidal], fun _ _ => Except.ok [],
   fun _ _ => Except.ok (), fun _ => false, fun n => !(n = 1 : Bool)⟩

/-- A session whose code lookup raises `KeyboardInterrupt`. -/
def interruptSession : Session :=
  ⟨fun _ => Except.error PyErr.keyboardInterrupt, fun _ _ => Except.ok [],
   fun _ _ => Except.ok (), fun _ => true, fun _ => true⟩

/-- A session whose code lookup and text search both raise plain
`Exception`s; playlist calls succeed. -/
def failingLookupSession : Session :=
  ⟨fun _ => Except.error (PyErr.exc "timeout"),
   fun _ _ => Except.error (PyErr.exc "503"),
   fun _ _ => Except.ok (), fun _ => true, fun _ => true⟩

/-! ## Helper lemmas -/

/-- A resolver trace is either the code-lookup part alone, or the
code-lookup part followed by exactly the throttle sleep and the text
search. -/
theorem find_events_cases (s : Session) (track : SpotifyTrack) (rd : ℚ) :
    (find_tidal_track s track rd).2 =
        (if track.isrc = "" then [] else [Event.isrcLookup track.isrc]) ∨
    (find_tidal_track s track rd).2 =
        (if track.isrc = "" then [] else [Event.isrcLookup track.isrc]) ++
        [Event.sleep rd, Event.textSearch (track_query track) 5] := by
  unfold find_tidal_track
  by_cases hi : track.isrc = ""
  · rcases hs : s.search (track_query track) 5 with e | l
    · rcases e with m | _ <;> simp [hi, hs]
    · rcases l with _ | ⟨a, l⟩ <;> simp [hi, hs]
  · rcases hl : s.get_tracks_by_isrc track.isrc with e | l
    · rcases e with m | _
      · rcases hs : s.search (track_query track) 5 with e' | l'
        · rcases e' with m' | _ <;> simp [hi, hl, hs]
        · rcases l' with _ | ⟨a, l'⟩ <;> simp [hi, hl, hs]
      · simp [hi, hl]
    · rcases l with _ | ⟨a, l⟩
      · rcases hs : s.search (track_query track) 5 with e' | l'
        · rcases e' with m' | _ <;> simp [hi, hl, hs]
        · rcases l' with _ | ⟨b, l'⟩ <;> simp [hi, hl, hs]
      · simp [hi, hl]

/-- Every event of a resolver trace is a code lookup, the throttle sleep,
or the text search — in particular never a playlist event or a prompt. -/
theorem find_events_sub (s : Session) (track : SpotifyTrack) (rd : ℚ) :
    (find_tidal_track s track rd).2 ⊆
      [Event.isrcLookup track.isrc, Event.sleep rd,
       Event.textSearch (track_query track) 5] := by
  rcases find_events_cases s track rd with h | h <;> rw [h] <;>
    by_cases hi : track.isrc = "" <;> simp [hi, List.subset_def]

/-- A non-empty recording code whose lookup returns a non-empty hit list
makes the resolver return the first hit at once: the trace is the lookup
alone. -/
theorem find_isrc_hit (s : Session) (track : SpotifyTrack) (rd : ℚ)
    (t : TidalTrack) (ts : List TidalTrack)
    (hcode : track.isrc ≠ "")
    (hhit : s.get_tracks_by_isrc track.isrc = Except.ok (t :: ts)) :
    find_tidal_track s track rd
      = (Except.ok (some t), [Event.isrcLookup track.isrc]) := by
  unfold find_tidal_track
  simp [hcode, hhit]

/-- When the code-lookup step yields no hit (no code, empty result, or a
caught exception), the trace continues with exactly the throttle sleep
followed by the text search, whatever the search's outcome. -/
theorem find_miss_trace (s : Session) (track : SpotifyTrack) (rd : ℚ)
    (hI : track.isrc = "" ∨ s.get_tracks_by_isrc track.isrc = Except.ok [] ∨
          ∃ m, s.get_tracks_by_isrc track.isrc = Except.error (PyErr.exc m)) :
    (find_tidal_track s track rd).2 =
      (if track.isrc = "" then [] else [Event.isrcLookup track.isrc]) ++
      [Event.sleep rd, Event.textSearch (track_query track) 5] := by
  unfold find_tidal_track
  by_cases hi0 : track.isrc = ""
  · rcases hs : s.search (track_query track) 5 with e | l
    · rcases e with m' | _ <;> simp [hi0, hs]
    · rcases l with _ | ⟨a, l⟩ <;> simp [hi0, hs]
  · have hcase : s.get_tracks_by_isrc track.isrc = Except.ok [] ∨
        ∃ m, s.get_tracks_by_isrc track.isrc = Except.error (PyErr.exc m) := by
      rcases hI with hi | hi | h
      · exact absurd hi hi0
      · exact Or.inl hi
      · exact Or.inr h
    rcases hcase with hi | ⟨m, hi⟩ <;>
      (rcases hs : s.search (track_query track) 5 with e | l
       · rcases e with m' | _ <;> simp [hi0, hi, hs]
       · rcases l with _ | ⟨a, l⟩ <;> simp [hi0, hi, hs])

/-! ## C2 -/

/-- C2: for every track whose recording code is non-empty and whose code
lookup returns at least one hit, `find_tidal_track` returns the first
code-lookup hit as the match and never issues a text search for that
track. -/
theorem c2_isrc_hit_authoritative (s : Session) (track : SpotifyTrack)
    (rd : ℚ) (t : TidalTrack) (ts : List TidalTrack)
    (hcode : track.isrc ≠ "")
    (hhit : s.get_tracks_by_isrc track.isrc = Except.ok (t :: ts)) :
    find_tidal_track s track rd
        = (Except.ok (some t), [Event.isrcLookup track.isrc]) ∧
    ∀ q n, Event.textSearch q n ∉ (find_tidal_track s track rd).2 := by
  refine ⟨find_isrc_hit s track rd t ts hcode hhit, ?_⟩
  intro q n
  rw [find_isrc_hit s track rd t ts hcode hhit]
  simp

/-- Witness for C2 at a concrete session and track. -/
theorem c2_isrc_hit_authoritative_witness :
    trackWithIsrc.isrc ≠ "" ∧
    hitSession.get_tracks_by_isrc trackWithIsrc.isrc
        = Except.ok [sampleTidal] ∧
    find_tidal_track hitSession trackWithIsrc DEFAULT_RETRY_DELAY
        = (Except.ok (some sampleTidal), [Event.isrcLookup trackWithIsrc.isrc]) :=
  ⟨by decide, rfl,
   (c2_isrc_hit_authoritative hitSession trackWithIsrc DEFAULT_RETRY_DELAY
      sampleTidal [] (by decide) rfl).1⟩

/-! ## C8 -/

/-- C8: a transport/lookup `Exception` at either step is swallowed and
treated as no match at that step — a failing code lookup still lets the
text search produce the match, and when both steps fail to produce a hit
the resolver returns `None` normally, never propagating the error. -/
theorem c8_lookup_errors_swallowed (s : Session) (track : SpotifyTrack)
    (rd : ℚ)
    (hI : track.isrc = "" ∨ s.get_tracks_by_isrc track.isrc = Except.ok [] ∨
          ∃ m, s.get_tracks_by_isrc track.isrc = Except.error (PyErr.exc m)) :
    ((s.search (track_query track) 5 = Except.ok [] ∨
        ∃ m, s.search (track_query track) 5 = Except.error (PyErr.exc m)) →
      (find_tidal_track s track rd).1 = Except.ok none) ∧
    (∀ h hits, s.search (track_query track) 5 = Except.ok (h :: hits) →
      (find_tidal_track s track rd).1 = Except.ok (some h)) := by
  constructor
  · intro hS
    unfold find_tidal_track
    rcases hI with hi | hi | ⟨m, hi⟩ <;> rcases hS with hs | ⟨m', hs⟩ <;>
      simp [hi, hs]
  · intro h hits hs
    unfold find_tidal_track
    rcases hI with hi | hi | ⟨m, hi⟩ <;> simp [hi, hs]

/-- Witness for C8: both the code lookup and the text search raise, yet
the resolver returns `ok none`. -/
theorem c8_lookup_errors_swallowed_witness :
    failingLookupSession.get_tracks_by_isrc trackWithIsrc.isrc
        = Except.error (PyErr.exc "timeout") ∧
    failingLookupSession.search (track_query trackWithIsrc) 5
        = Except.error (PyErr.exc "503") ∧
    (find_tidal_track failingLookupSession trackWithIsrc
        DEFAULT_RETRY_DELAY).1 = Except.ok none :=
  ⟨rfl, rfl,
   (c8_lookup_errors_swallowed failingLookupSession trackWithIsrc
      DEFAULT_RETRY_DELAY (Or.inr (Or.inr ⟨"timeout", rfl⟩))).1
     (Or.inr ⟨"503", rfl⟩)⟩

/-! ## C10 -/

/-- C10: a `KeyboardInterrupt` or end-of-input while reading the answer
of `_ask_yes_no` or `_ask_choice` is caught and the prompt's default
answer is returned (lowercased, for `_ask_choice`), rather than the
exception propagating. -/
theorem c10_prompt_interrupt_returns_default :
    ∀ (dflt : Bool) (rest : List Answer) (choices : List String)
      (d : String) (rest2 : List Answer),
      _ask_yes_no dflt (Answer.interrupt :: rest) = (dflt, rest) ∧
      _ask_yes_no dflt [] = (dflt, []) ∧
      _ask_choice choices d (Answer.interrupt :: rest2) = (pyLower d, rest2) ∧
      _ask_choice choices d [] = (pyLower d, []) := by
  intro dflt rest choices d rest2
  exact ⟨rfl, rfl, rfl, rfl⟩

/-! ## C3 -/

/-- C3 counterexample: on a successful code lookup the source returns
before `time.sleep` runs (line 230 precedes line 235), so the throttle
delay is *not* applied on that call, contradicting "regardless of whether
the code lookup produced a hit, the delay is applied". -/
theorem c3_counterexample :
    (find_tidal_track hitSession trackWithIsrc DEFAULT_RETRY_DELAY).2
        = [Event.isrcLookup "USX17607839"] ∧
    Event.sleep DEFAULT_RETRY_DELAY ∉
      (find_tidal_track hitSession trackWithIsrc DEFAULT_RETRY_DELAY).2 := by
  constructor
  · rfl
  · decide

/-- C3 amended: the fixed throttle delay is applied immediately before
the text search whenever the code-lookup step yields no hit (no code,
empty result, or a caught exception); when the code lookup returns a hit
the resolver instead returns at once, with neither delay nor search. -/
theorem c3_throttle_before_text_search (s : Session) (track : SpotifyTrack)
    (rd : ℚ) :
    ((track.isrc = "" ∨ s.get_tracks_by_isrc track.isrc = Except.ok [] ∨
        ∃ m, s.get_tracks_by_isrc track.isrc = Except.error (PyErr.exc m)) →
      (find_tidal_track s track rd).2 =
        (if track.isrc = "" then [] else [Event.isrcLookup track.isrc]) ++
        [Event.sleep rd, Event.textSearch (track_query track) 5]) ∧
    (∀ t ts, track.isrc ≠ "" →
      s.get_tracks_by_isrc track.isrc = Except.ok (t :: ts) →
      (find_tidal_track s track rd).2 = [Event.isrcLookup track.isrc]) := by
  constructor
  · intro hI
    exact find_miss_trace s track rd hI
  · intro t ts hcode hhit
    rw [find_isrc_hit s track rd t ts hcode hhit]

/-- Witness for the amended C3 on a codeless track: the trace is exactly
sleep-then-search. -/
theorem c3_throttle_before_text_search_witness :
    trackNoIsrc.isrc = "" ∧
    (find_tidal_track hitSession trackNoIsrc DEFAULT_RETRY_DELAY).2 =
      (if trackNoIsrc.isrc = "" then [] else [Event.isrcLookup trackNoIsrc.isrc]) ++
      [Event.sleep DEFAULT_RETRY_DELAY,
       Event.textSearch (track_query trackNoIsrc) 5] :=
  ⟨rfl,
   (c3_throttle_before_text_search hitSession trackNoIsrc
      DEFAULT_RETRY_DELAY).1 (Or.inl rfl)⟩

/-! ## C5 -/

/-- The fallback loop adds exactly the individually-successful ids, in
order, and sleeps 0.2 s after each successful add (and not after a
failed one). -/
theorem add_one_by_one_spec (s : Session) : ∀ ids : List Nat,
    add_one_by_one s ids =
      (ids.filter s.single_add,
       ids.flatMap (fun tid =>
         if s.single_add tid then
           [Event.singleAdd tid, Event.sleep MATERIALIZER_DELAY]
         else [Event.singleAdd tid])) := by
  intro ids
  induction ids with
  | nil => rfl
  | cons tid rest ih =>
    by_cases h : s.single_add tid <;> simp [add_one_by_one, ih, h]

/-- C5 counterexample: with ids `[1, 2]`, a failing batch add, and an
individual add that fails on id 1, the two individual attempts are
adjacent in the trace — no delay between attempts — and the only delay
slept is 0.2 s, not the resolver's 0.3 s throttle delay. -/
theorem c5_counterexample :
    _create_and_populate_playlist fallbackSession "P" [1, 2]
      = (Except.ok ⟨"P", "Imported from Spotify — 2 tracks", [2]⟩,
         [Event.createPlaylist "P" "Imported from Spotify — 2 tracks",
          Event.batchAdd [1, 2], Event.singleAdd 1, Event.singleAdd 2,
          Event.sleep MATERIALIZER_DELAY]) ∧
    Event.sleep DEFAULT_RETRY_DELAY ∉
      (_create_and_populate_playlist fallbackSession "P" [1, 2]).2 ∧
    ((_create_and_populate_playlist fallbackSession "P" [1, 2]).2.get? 2
        = some (Event.singleAdd 1) ∧
     (_create_and_populate_playlist fallbackSession "P" [1, 2]).2.get? 3
        = some (Event.singleAdd 2)) := by
  refine ⟨rfl, by decide, rfl, rfl⟩

/-- C5 amended: the playlist creation call always happens (first in the
trace, whatever fails afterwards); if the batch add fails, every track
id is retried individually in the original order, with a fixed 0.2 s
delay after each *successful* individual add; an individual failure only
omits that id and never aborts the rest — the playlist is returned with
exactly the individually-successful ids. -/
theorem c5_materializer_fallback (s : Session) (name : String)
    (ids : List Nat) :
    ((_create_and_populate_playlist s name ids).2.head? =
       some (Event.createPlaylist name (playlist_description ids))) ∧
    (s.create_playlist name (playlist_description ids) = Except.ok () →
     ids ≠ [] → s.batch_add ids = false →
     _create_and_populate_playlist s name ids =
       (Except.ok ⟨name, playlist_description ids, ids.filter s.single_add⟩,
        Event.createPlaylist name (playlist_description ids) ::
          Event.batchAdd ids ::
          ids.flatMap (fun tid =>
            if s.single_add tid then
              [Event.singleAdd tid, Event.sleep MATERIALIZER_DELAY]
            else [Event.singleAdd tid]))) := by
  constructor
  · unfold _create_and_populate_playlist
    rcases hc : s.create_playlist name (playlist_description ids) with m | u
    · simp [hc]
    · rcases ids with _ | ⟨a, rest⟩
      · simp [hc]
      · by_cases hb : s.batch_add (a :: rest) <;> simp [hc, hb]
  · intro hc hne hb
    unfold _create_and_populate_playlist
    rcases ids with _ | ⟨a, rest⟩
    · exact absurd rfl hne
    · simp [hc, hb, add_one_by_one_spec]

/-- Witness for the amended C5 at the concrete fallback session. -/
theorem c5_materializer_fallback_witness :
    fallbackSession.create_playlist "P" (playlist_description [1, 2])
        = Except.ok () ∧
    ([1, 2] : List Nat) ≠ [] ∧
    fallbackSession.batch_add [1, 2] = false ∧
    _create_and_populate_playlist fallbackSession "P" [1, 2]
      = (Except.ok ⟨"P", playlist_description [1, 2],
            ([1, 2] : List Nat).filter fallbackSession.single_add⟩,
         Event.createPlaylist "P" (playlist_description [1, 2]) ::
           Event.batchAdd [1, 2] ::
           ([1, 2] : List Nat).flatMap (fun tid =>
             if fallbackSession.single_add tid then
               [Event.singleAdd tid, Event.sleep MATERIALIZER_DELAY]
             else [Event.singleAdd tid])) :=
  ⟨rfl, by decide, rfl,
   (c5_materializer_fallback fallbackSession "P" [1, 2]).2 rfl (by decide) rfl⟩

/-! ## Orchestrator lemmas -/

/-- The resolver's returned match on a track, on runs where it does not
raise. -/
def okMatch (s : Session) (t : SpotifyTrack) : Option TidalTrack :=
  match (find_tidal_track s t DEFAULT_RETRY_DELAY).1 with
  | Except.ok tt => tt
  | Except.error _ => none

/-- The `ImportResult` automatic mode records for one track. -/
def autoResult (s : Session) (t : SpotifyTrack) : ImportResult :=
  ⟨t, okMatch s t,
   if (okMatch s t).isSome then Status.added else Status.not_found⟩

/-- On a non-raising run, automatic mode's result list is exactly the
input list mapped through `autoResult`, in order. -/
theorem resolve_all_ok (s : Session) : ∀ (ts : List SpotifyTrack)
    (rs : List ImportResult) (ev : List Event),
    resolve_all s ts = (Except.ok rs, ev) → rs = ts.map (autoResult s) := by
  intro ts
  induction ts with
  | nil =>
    intro rs ev h
    simp only [resolve_all, Prod.mk.injEq, Except.ok.injEq] at h
    simp [← h.1]
  | cons t ts ih =>
    intro rs ev h
    rw [resolve_all] at h
    rcases hf : find_tidal_track s t DEFAULT_RETRY_DELAY with ⟨rf, evF⟩
    rw [hf] at h
    cases rf with
    | error e => simp at h
    | ok tt =>
      rcases hr : resolve_all s ts with ⟨rr, ev2⟩
      rw [hr] at h
      cases rr with
      | error e => simp at h
      | ok rs2 =>
        simp only [Prod.mk.injEq, Except.ok.injEq] at h
        have hok : okMatch s t = tt := by
          unfold okMatch
          rw [hf]
        rw [← h.1, ih rs2 ev2 (by rw [hr])]
        simp [autoResult, hok]

/-- No resolver loop ever records a playlist-creation event. -/
theorem resolve_all_no_playlist_events (s : Session) :
    ∀ (ts : List SpotifyTrack) (n d : String),
    Event.createPlaylist n d ∉ (resolve_all s ts).2 := by
  intro ts n d
  induction ts with
  | nil => simp [resolve_all]
  | cons t ts ih =>
    rcases hf : find_tidal_track s t DEFAULT_RETRY_DELAY with ⟨rf, evF⟩
    have hevF : Event.createPlaylist n d ∉ evF := by
      intro hmem
      have hsub := find_events_sub s t DEFAULT_RETRY_DELAY
      rw [hf] at hsub
      have := hsub hmem
      simp at this
    rcases hr : resolve_all s ts with ⟨rr, ev2⟩
    rw [hr] at ih
    rw [resolve_all, hf, hr]
    cases rf with
    | error e => simpa using hevF
    | ok tt =>
      cases rr with
      | error e => simp at ih ⊢; exact ⟨hevF, ih⟩
      | ok rs2 => simp at ih ⊢; exact ⟨hevF, ih⟩

/-- The media phase only records its two prompts. -/
theorem media_events_sub (track : SpotifyTrack) (ans : List Answer) :
    (media_phase track ans).2 ⊆
      [Event.prompt "  Show cover art?", Event.prompt "  Play preview?"] := by
  unfold media_phase
  by_cases hc : track.image_url = "" <;> by_cases hp : track.preview_url = "" <;>
    simp [hc, hp, List.subset_def]

/-- One interactive iteration never records a playlist-creation event. -/
theorem import_one_no_playlist_events (s : Session) (t : SpotifyTrack)
    (ans : List Answer) (n d : String) :
    Event.createPlaylist n d ∉ (import_one s t ans).2.2 := by
  intro hmem
  have hms := media_events_sub t ans
  have hfs := find_events_sub s t DEFAULT_RETRY_DELAY
  rcases hf : find_tidal_track s t DEFAULT_RETRY_DELAY with ⟨rf, evF⟩
  rw [hf] at hfs
  rw [import_one, hf] at hmem
  cases rf with
  | error e =>
    simp at hmem
    rcases hmem with hm | hm
    · exact absurd (hms hm) (by simp)
    · exact absurd (hfs hm) (by simp)
  | ok tt =>
    cases tt with
    | none =>
      simp at hmem
      rcases hmem with hm | hm
      · exact absurd (hms hm) (by simp)
      · exact absurd (hfs hm) (by simp)
    | some tt =>
      simp at hmem
      rcases hmem with hm | hm
      · exact absurd (hms hm) (by simp)
      · exact absurd (hfs hm) (by simp)

/-- No interactive review loop ever records a playlist-creation event. -/
theorem review_loop_no_playlist_events (s : Session) :
    ∀ (ts : List SpotifyTrack) (ans : List Answer) (n d : String),
    Event.createPlaylist n d ∉ (review_loop s ts ans).2.2 := by
  intro ts
  induction ts with
  | nil => intro ans n d; simp [review_loop]
  | cons t ts ih =>
    intro ans n d
    rcases h1 : import_one s t ans with ⟨e1 | r1, ans1, ev1⟩
    · have hev1 : Event.createPlaylist n d ∉ ev1 := by
        have := import_one_no_playlist_events s t ans n d
        rw [h1] at this
        exact this
      simp only [review_loop, h1]
      simpa using hev1
    · have hev1 : Event.createPlaylist n d ∉ ev1 := by
        have := import_one_no_playlist_events s t ans n d
        rw [h1] at this
        exact this
      rcases h2 : review_loop s ts ans1 with ⟨e2 | rs2, ans2, ev2⟩ <;>
      · have hev2 : Event.createPlaylist n d ∉ ev2 := by
          have := ih ans1 n d
          rw [h2] at this
          exact this
        simp only [review_loop, h1, h2]
        simp
        exact ⟨hev1, hev2⟩

/-- A non-raising interactive iteration keeps the source track and ends
in a terminal status. -/
theorem import_one_ok (s : Session) (t : SpotifyTrack) (ans : List Answer)
    (r : ImportResult) (ans1 : List Answer) (ev : List Event)
    (h : import_one s t ans = (Except.ok r, ans1, ev)) :
    r.spotify_track = t ∧
    (r.status = Status.added ∨ r.status = Status.skipped ∨
     r.status = Status.not_found) := by
  rw [import_one] at h
  rcases hf : find_tidal_track s t DEFAULT_RETRY_DELAY with ⟨rf, evF⟩
  rw [hf] at h
  cases rf with
  | error e => simp at h
  | ok tt =>
    cases tt with
    | none =>
      simp only [Prod.mk.injEq, Except.ok.injEq] at h
      rw [← h.1]
      simp
    | some tt =>
      simp only [Prod.mk.injEq, Except.ok.injEq] at h
      rw [← h.1]
      by_cases hb : (_ask_yes_no true (media_phase t ans).1).1 <;> simp [hb]

/-- On a non-raising run, interactive mode's results keep the input
tracks in order and all statuses are terminal. -/
theorem review_loop_ok (s : Session) : ∀ (ts : List SpotifyTrack)
    (ans : List Answer) (rs : List ImportResult) (ansr : List Answer)
    (ev : List Event),
    review_loop s ts ans = (Except.ok rs, ansr, ev) →
    rs.map ImportResult.spotify_track = ts ∧
    ∀ r ∈ rs, r.status = Status.added ∨ r.status = Status.skipped ∨
      r.status = Status.not_found := by
  intro ts
  induction ts with
  | nil =>
    intro ans rs ansr ev h
    simp only [review_loop, Prod.mk.injEq, Except.ok.injEq] at h
    simp [← h.1]
  | cons t ts ih =>
    intro ans rs ansr ev h
    rcases h1 : import_one s t ans with ⟨e1 | r1, ans1, ev1⟩
    · simp only [review_loop, h1] at h
      simp at h
    · rcases h2 : review_loop s ts ans1 with ⟨e2 | rs2, ans2, ev2⟩
      · simp only [review_loop, h1, h2] at h
        simp at h
      · simp only [review_loop, h1, h2, Prod.mk.injEq, Except.ok.injEq] at h
        obtain ⟨hone, hstat⟩ := import_one_ok s t ans r1 ans1 ev1 h1
        obtain ⟨hmap, hall⟩ := ih ans1 rs2 ans2 ev2 (by rw [h2])
        rw [← h.1]
        constructor
        · simp [hone, hmap]
        · intro x hx
          rcases List.mem_cons.mp hx with hx | hx
          · rw [hx]; exact hstat
          · exact hall x hx

/-! ## C1 -/

/-- C1: whenever either orchestrator mode returns (rather than raising),
the `ImportResult` list has exactly one entry per input track and no
entry is left with status `pending`. -/
theorem c1_orchestrator_length_no_pending (s : Session)
    (tracks : List SpotifyTrack) (name : String) :
    (∀ results pl ev,
        import_all s tracks name = (Except.ok (results, pl), ev) →
        results.length = tracks.length ∧
        ∀ r ∈ results, r.status ≠ Status.pending) ∧
    (∀ ans results pl ansr ev,
        import_individually s tracks name ans
            = (Except.ok (results, pl), ansr, ev) →
        results.length = tracks.length ∧
        ∀ r ∈ results, r.status ≠ Status.pending) := by
  constructor
  · intro results pl ev h
    rcases hr : resolve_all s tracks with ⟨er | rs, ev1⟩
    · simp only [import_all, hr] at h
      simp at h
    · rcases hm : _create_and_populate_playlist s name
          (rs.filterMap (fun r => r.tidal_track.map TidalTrack.id))
        with ⟨em | pl2, ev2⟩
      · simp only [import_all, hr, hm] at h
        simp at h
      · simp only [import_all, hr, hm, Prod.mk.injEq, Except.ok.injEq] at h
        obtain ⟨⟨h1, _⟩, _⟩ := h
        have hmap := resolve_all_ok s tracks rs ev1 (by rw [hr])
        constructor
        · rw [← h1, hmap, List.length_map]
        · intro r hrm
          rw [← h1, hmap] at hrm
          obtain ⟨t, _, rfl⟩ := List.mem_map.mp hrm
          by_cases hsome : (okMatch s t).isSome <;> simp [autoResult, hsome]
  · intro ans results pl ansr ev h
    rcases hl : review_loop s tracks ans with ⟨el | rs, ans1, ev1⟩
    · simp only [import_individually, hl] at h
      simp at h
    · rcases hm : _create_and_populate_playlist s name
          (rs.filterMap (fun r =>
            if r.status = Status.added then r.tidal_track.map TidalTrack.id
            else none))
        with ⟨em | pl2, ev2⟩
      · simp only [import_individually, hl, hm] at h
        simp at h
      · simp only [import_individually, hl, hm, Prod.mk.injEq,
          Except.ok.injEq] at h
        obtain ⟨⟨h1, _⟩, _⟩ := h
        obtain ⟨hmap, hall⟩ := review_loop_ok s tracks ans rs ans1 ev1
          (by rw [hl])
        constructor
        · rw [← h1, ← hmap, List.length_map]
        · intro r hrm
          rw [← h1] at hrm
          rcases hall r hrm with hst | hst | hst <;> rw [hst] <;> simp
/-- Concrete results of automatic mode on one code-matched track. -/
def resultsAutoW : List ImportResult :=
  [⟨trackWithIsrc, some sampleTidal, Status.added⟩]

/-- The playlist automatic mode creates for `resultsAutoW`. -/
def playlistW : Playlist := ⟨"P", "Imported from Spotify — 1 tracks", [101]⟩

/-- The trace automatic mode produces for `resultsAutoW`. -/
def eventsAutoW : List Event :=
  [Event.isrcLookup "USX17607839",
   Event.createPlaylist "P" "Imported from Spotify — 1 tracks",
   Event.batchAdd [101]]

/-- Witness for C1 on a concrete automatic-mode run. -/
theorem c1_orchestrator_length_no_pending_witness :
    import_all hitSession [trackWithIsrc] "P"
        = (Except.ok (resultsAutoW, playlistW), eventsAutoW) ∧
    resultsAutoW.length = [trackWithIsrc].length ∧
    (⟨trackWithIsrc, some sampleTidal, Status.added⟩ : ImportResult).status
        ≠ Status.pending :=
  ⟨rfl,
   ((c1_orchestrator_length_no_pending hitSession [trackWithIsrc] "P").1
      resultsAutoW playlistW eventsAutoW rfl).1,
   ((c1_orchestrator_length_no_pending hitSession [trackWithIsrc] "P").1
      resultsAutoW playlistW eventsAutoW rfl).2
     ⟨trackWithIsrc, some sampleTidal, Status.added⟩ (by simp [resultsAutoW])⟩

/-! ## C6 -/

/-- C6: in automatic mode each result's status is `added` exactly when
the resolver returned a match (`not_found` otherwise), and the
materializer is invoked with the identifiers of exactly the matched
tracks, in original input order — unmatched tracks contribute nothing. -/
theorem c6_auto_mode_matches_to_materializer (s : Session)
    (tracks : List SpotifyTrack) (name : String) :
    ∀ results pl ev,
      import_all s tracks name = (Except.ok (results, pl), ev) →
      results = tracks.map (autoResult s) ∧
      (∀ r ∈ results, (r.status = Status.added ↔ r.tidal_track.isSome)) ∧
      ∃ evR evM, ev = evR ++ evM ∧
        _create_and_populate_playlist s name
            (tracks.filterMap (fun t => (okMatch s t).map TidalTrack.id))
          = (Except.ok pl, evM) := by
  intro results pl ev h
  rcases hr : resolve_all s tracks with ⟨er | rs, ev1⟩
  · simp only [import_all, hr] at h
    simp at h
  · have hmap := resolve_all_ok s tracks rs ev1 (by rw [hr])
    have hids : rs.filterMap (fun r => r.tidal_track.map TidalTrack.id)
        = tracks.filterMap (fun t => (okMatch s t).map TidalTrack.id) := by
      rw [hmap, List.filterMap_map]
      simp [Function.comp_def, autoResult]
    rcases hm : _create_and_populate_playlist s name
        (rs.filterMap (fun r => r.tidal_track.map TidalTrack.id))
      with ⟨em | pl2, ev2⟩
    · simp only [import_all, hr, hm] at h
      simp at h
    · simp only [import_all, hr, hm, Prod.mk.injEq, Except.ok.injEq] at h
      obtain ⟨⟨h1, h2⟩, h3⟩ := h
      refine ⟨by rw [← h1, hmap], ?_, ev1, ev2, by rw [← h3], ?_⟩
      · intro r hrm
        rw [← h1, hmap] at hrm
        obtain ⟨t, _, rfl⟩ := List.mem_map.mp hrm
        by_cases hsome : (okMatch s t).isSome <;> simp [autoResult, hsome]
      · rw [← hids, hm, h2]

/-- Witness for C6 on a concrete automatic-mode run. -/
theorem c6_auto_mode_matches_to_materializer_witness :
    import_all hitSession [trackWithIsrc] "P"
        = (Except.ok (resultsAutoW, playlistW), eventsAutoW) ∧
    resultsAutoW = [trackWithIsrc].map (autoResult hitSession) :=
  ⟨rfl,
   (c6_auto_mode_matches_to_materializer hitSession [trackWithIsrc] "P"
      resultsAutoW playlistW eventsAutoW rfl).1⟩

/-! ## C4 -/

/-- C4 counterexample: a `KeyboardInterrupt` raised while the interactive
"Add to playlist?" confirmation is being read is caught by `_ask_yes_no`
(source line 732) and treated as the default "yes": the run returns a
full result list with the track `added` and the playlist *is*
materialized, so a cancellation during the per-track loop neither
propagates nor prevents materialization. -/
theorem c4_counterexample :
    import_individually hitSession [trackWithIsrc] "P" [Answer.interrupt]
      = (Except.ok ([⟨trackWithIsrc, some sampleTidal, Status.added⟩],
           ⟨"P", "Imported from Spotify — 1 tracks", [101]⟩),
         [],
         [Event.isrcLookup "USX17607839", Event.prompt "  Add to playlist?",
          Event.createPlaylist "P" "Imported from Spotify — 1 tracks",
          Event.batchAdd [101]]) ∧
    Event.createPlaylist "P" "Imported from Spotify — 1 tracks" ∈
      (import_individually hitSession [trackWithIsrc] "P"
        [Answer.interrupt]).2.2 := by
  refine ⟨rfl, by decide⟩

/-- C4 amended: a `KeyboardInterrupt` raised during a track's
*resolution* (a catalog call inside `find_tidal_track`) propagates out of
either mode's loop unchanged, and no playlist-creation call has been made
in such a run; a `KeyboardInterrupt` raised while a yes/no prompt answer
is being read is instead caught by `_ask_yes_no` and treated as the
prompt's default answer, and the run continues. -/
theorem c4_resolution_interrupt_propagates (s : Session)
    (tracks : List SpotifyTrack) (name : String) :
    (∀ ev, resolve_all s tracks = (Except.error PyErr.keyboardInterrupt, ev) →
       import_all s tracks name = (Except.error PyErr.keyboardInterrupt, ev) ∧
       ∀ n d, Event.createPlaylist n d ∉ ev) ∧
    (∀ ans ansr ev,
       review_loop s tracks ans
           = (Except.error PyErr.keyboardInterrupt, ansr, ev) →
       import_individually s tracks name ans
           = (Except.error PyErr.keyboardInterrupt, ansr, ev) ∧
       ∀ n d, Event.createPlaylist n d ∉ ev) ∧
    (∀ (dflt : Bool) (rest : List Answer),
       _ask_yes_no dflt (Answer.interrupt :: rest) = (dflt, rest)) := by
  refine ⟨?_, ?_, fun _ _ => rfl⟩
  · intro ev h
    refine ⟨by simp only [import_all, h], ?_⟩
    intro n d
    have := resolve_all_no_playlist_events s tracks n d
    rw [h] at this
    exact this
  · intro ans ansr ev h
    refine ⟨by simp only [import_individually, h], ?_⟩
    intro n d
    have := review_loop_no_playlist_events s tracks ans n d
    rw [h] at this
    exact this

/-- Witness for the amended C4: a code lookup that raises
`KeyboardInterrupt` makes automatic mode propagate it with no playlist
event in the trace. -/
theorem c4_resolution_interrupt_propagates_witness :
    resolve_all interruptSession [trackWithIsrc]
        = (Except.error PyErr.keyboardInterrupt,
           [Event.isrcLookup "USX17607839"]) ∧
    import_all interruptSession [trackWithIsrc] "P"
        = (Except.error PyErr.keyboardInterrupt,
           [Event.isrcLookup "USX17607839"]) ∧
    Event.createPlaylist "P" "D" ∉
      ([Event.isrcLookup "USX17607839"] : List Event) :=
  ⟨rfl,
   ((c4_resolution_interrupt_propagates interruptSession [trackWithIsrc]
       "P").1 [Event.isrcLookup "USX17607839"] rfl).1,
   ((c4_resolution_interrupt_propagates interruptSession [trackWithIsrc]
       "P").1 [Event.isrcLookup "USX17607839"] rfl).2 "P" "D"⟩

/-! ## C7 -/

/-- C7: in interactive mode, a resolved track is confirmed via the
"Add to playlist?" prompt — confirmation yields `added`, refusal yields
`skipped`; an unresolved track yields `not_found` with no confirmation
prompt; and the materializer receives exactly the `added` results'
identifiers, in original input order. -/
theorem c7_interactive_mode (s : Session) :
    (∀ track ans tt evF,
       find_tidal_track s track DEFAULT_RETRY_DELAY
           = (Except.ok (some tt), evF) →
       import_one s track ans
         = (Except.ok ⟨track, some tt,
              if (_ask_yes_no true (media_phase track ans).1).1
              then Status.added else Status.skipped⟩,
            (_ask_yes_no true (media_phase track ans).1).2,
            (media_phase track ans).2 ++ evF ++ [Event.prompt addPromptText])) ∧
    (∀ track ans evF,
       find_tidal_track s track DEFAULT_RETRY_DELAY
           = (Except.ok none, evF) →
       import_one s track ans
         = (Except.ok ⟨track, none, Status.not_found⟩,
            (media_phase track ans).1, (media_phase track ans).2 ++ evF) ∧
       Event.prompt addPromptText ∉ (media_phase track ans).2 ++ evF) ∧
    (∀ tracks name ans results pl ansr ev,
       import_individually s tracks name ans
           = (Except.ok (results, pl), ansr, ev) →
       results.map ImportResult.spotify_track = tracks ∧
       ∃ evR evM, ev = evR ++ evM ∧
         _create_and_populate_playlist s name
             (results.filterMap (fun r =>
               if r.status = Status.added then r.tidal_track.map TidalTrack.id
               else none))
           = (Except.ok pl, evM)) := by
  refine ⟨?_, ?_, ?_⟩
  · intro track ans tt evF hf
    simp only [import_one, hf]
  · intro track ans evF hf
    refine ⟨by simp only [import_one, hf], ?_⟩
    intro hmem
    rcases List.mem_append.mp hmem with hm | hm
    · have := media_events_sub track ans hm
      simp [addPromptText] at this
    · have hsub := find_events_sub s track DEFAULT_RETRY_DELAY
      rw [hf] at hsub
      have := hsub hm
      simp [addPromptText] at this
  · intro tracks name ans results pl ansr ev h
    rcases hl : review_loop s tracks ans with ⟨el | rs, ans1, ev1⟩
    · simp only [import_individually, hl] at h
      simp at h
    · rcases hm : _create_and_populate_playlist s name
          (rs.filterMap (fun r =>
            if r.status = Status.added then r.tidal_track.map TidalTrack.id
            else none))
        with ⟨em | pl2, ev2⟩
      · simp only [import_individually, hl, hm] at h
        simp at h
      · simp only [import_individually, hl, hm, Prod.mk.injEq,
          Except.ok.injEq] at h
        obtain ⟨⟨h1, h2⟩, _, h4⟩ := h
        obtain ⟨hmap, _⟩ := review_loop_ok s tracks ans rs ans1 ev1
          (by rw [hl])
        subst h1
        exact ⟨hmap, ev1, ev2, by rw [← h4], by rw [hm, h2]⟩

/-- Witness for C7 on a concrete refused confirmation. -/
theorem c7_interactive_mode_witness :
    find_tidal_track hitSession trackWithIsrc DEFAULT_RETRY_DELAY
        = (Except.ok (some sampleTidal), [Event.isrcLookup "USX17607839"]) ∧
    import_one hitSession trackWithIsrc [Answer.text "n"]
      = (Except.ok ⟨trackWithIsrc, some sampleTidal,
           if (_ask_yes_no true
                (media_phase trackWithIsrc [Answer.text "n"]).1).1
           then Status.added else Status.skipped⟩,
         (_ask_yes_no true (media_phase trackWithIsrc [Answer.text "n"]).1).2,
         (media_phase trackWithIsrc [Answer.text "n"]).2 ++
           [Event.isrcLookup "USX17607839"] ++ [Event.prompt addPromptText]) :=
  ⟨rfl,
   (c7_interactive_mode hitSession).1 trackWithIsrc [Answer.text "n"]
     sampleTidal [Event.isrcLookup "USX17607839"] rfl⟩

/-! ## C9 -/

/-- Names recorded under `imported`, in order. -/
def importedOf : List EntryRecord → List String
  | [] => []
  | EntryRecord.importedRec n :: rest => n :: importedOf rest
  | EntryRecord.skippedRec _ :: rest => importedOf rest
  | EntryRecord.failedRec _ _ :: rest => importedOf rest

/-- Names recorded under `skipped`, in order. -/
def skippedOf : List EntryRecord → List String
  | [] => []
  | EntryRecord.skippedRec n :: rest => n :: skippedOf rest
  | EntryRecord.importedRec _ :: rest => skippedOf rest
  | EntryRecord.failedRec _ _ :: rest => skippedOf rest

/-- Name/reason pairs recorded under `failed`, in order. -/
def failedOf : List EntryRecord → List (String × String)
  | [] => []
  | EntryRecord.failedRec n m :: rest => (n, m) :: failedOf rest
  | EntryRecord.importedRec _ :: rest => failedOf rest
  | EntryRecord.skippedRec _ :: rest => failedOf rest

/-- Each record lands in exactly one of the three lists. -/
theorem recordOf_length : ∀ recs : List EntryRecord,
    (importedOf recs).length + (skippedOf recs).length +
      (failedOf recs).length = recs.length := by
  intro recs
  induction recs with
  | nil => rfl
  | cons r rest ih =>
    cases r <;> simp [importedOf, skippedOf, failedOf] <;> omega

/-- A completed folder loop classifies each processed entry into exactly
one record, appended to the accumulators in processing order. -/
theorem process_folder_loop_ok (s : Session) : ∀ (es : List CsvEntry)
    (ans : List Answer) (imp skp : List String)
    (fld : List (String × String)) (imp2 skp2 : List String)
    (fld2 : List (String × String)),
    process_folder_loop s es ans imp skp fld = Except.ok (imp2, skp2, fld2) →
    ∃ recs : List EntryRecord, recs.length = es.length ∧
      imp2 = imp ++ importedOf recs ∧ skp2 = skp ++ skippedOf recs ∧
      fld2 = fld ++ failedOf recs := by
  intro es
  induction es with
  | nil =>
    intro ans imp skp fld imp2 skp2 fld2 h
    simp only [process_folder_loop, Except.ok.injEq, Prod.mk.injEq] at h
    exact ⟨[], rfl, by simp [importedOf, skippedOf, failedOf, ← h.1, ← h.2.1,
      ← h.2.2]⟩
  | cons e es ih =>
    intro ans imp skp fld imp2 skp2 fld2 h
    rcases hp : process_entry s e ans with ⟨rp | rec, ans1, ev1⟩
    · simp only [process_folder_loop, hp] at h
      simp at h
    · cases rec with
      | importedRec n =>
        simp only [process_folder_loop, hp] at h
        obtain ⟨recs, hlen, h1, h2, h3⟩ := ih ans1 (imp ++ [n]) skp fld
          imp2 skp2 fld2 h
        exact ⟨EntryRecord.importedRec n :: recs, by simp [hlen],
          by simp [importedOf, h1], by simp [skippedOf, h2],
          by simp [failedOf, h3]⟩
      | skippedRec n =>
        simp only [process_folder_loop, hp] at h
        obtain ⟨recs, hlen, h1, h2, h3⟩ := ih ans1 imp (skp ++ [n]) fld
          imp2 skp2 fld2 h
        exact ⟨EntryRecord.skippedRec n :: recs, by simp [hlen],
          by simp [importedOf, h1], by simp [skippedOf, h2],
          by simp [failedOf, h3]⟩
      | failedRec n m =>
        simp only [process_folder_loop, hp] at h
        obtain ⟨recs, hlen, h1, h2, h3⟩ := ih ans1 imp skp (fld ++ [(n, m)])
          imp2 skp2 fld2 h
        exact ⟨EntryRecord.failedRec n m :: recs, by simp [hlen],
          by simp [importedOf, h1], by simp [skippedOf, h2],
          by simp [failedOf, h3]⟩

/-- Unfolding of `process_entry` past the parse, import-confirmation,
name and mode prompts, leaving the import run's outcome dispatch. -/
theorem process_entry_run (s : Session) (e : CsvEntry) (ans : List Answer)
    (t : SpotifyTrack) (ts : List SpotifyTrack) (pname : String)
    (ans2 ans3 : List Answer) (modeStr : String)
    (hp : e.parse = Except.ok (t :: ts))
    (hdo : (_ask_yes_no true ans).1 = true)
    (hname : _prompt_playlist_name (_csv_to_default_name e.stem)
        (_ask_yes_no true ans).2 = (Except.ok pname, ans2))
    (hmode : _ask_choice ["all", "review"] "all" ans2 = (modeStr, ans3)) :
    process_entry s e ans =
      (match (if modeStr = "review"
              then import_individually s (t :: ts) pname ans3
              else ((import_all s (t :: ts) pname).1, ans3,
                    (import_all s (t :: ts) pname).2)) with
       | (Except.ok _, ans4, ev) =>
         (Except.ok (EntryRecord.importedRec pname),
          (_ask_yes_no false ans4).2, ev)
       | (Except.error PyErr.keyboardInterrupt, ans4, ev) =>
         if (_ask_yes_no true ans4).1 then
           (Except.ok (EntryRecord.skippedRec pname),
            (_ask_yes_no true ans4).2, ev)
         else
           (Except.error PyErr.keyboardInterrupt,
            (_ask_yes_no true ans4).2, ev)
       | (Except.error (PyErr.exc m), ans4, ev) =>
         (Except.ok (EntryRecord.failedRec pname m), ans4, ev)) := by
  unfold process_entry
  simp only [hp, hdo, hname, hmode, Bool.true_eq_false, if_false, reduceIte]

/-- C9: on a non-aborted folder run every discovered CSV entry is
recorded exactly once, in exactly one of the three report lists, with
the total equal to the number of discovered files; and each entry is
classified as the claim states: parse failure or a non-cancellation
exception from the import → `failed` (with the error text), zero
tracks, a declined import, or a cancellation followed by "continue" →
`skipped`, success → `imported`. -/
theorem c9_folder_report_partition (s : Session) :
    (∀ (entries : List CsvEntry) (ans : List Answer) (report : FolderReport),
       process_folder s entries ans = Except.ok report →
       report.total = entries.length ∧
       report.imported.length + report.skipped.length + report.failed.length
           = entries.length ∧
       ∃ recs : List EntryRecord, recs.length = entries.length ∧
         report.imported = importedOf recs ∧
         report.skipped = skippedOf recs ∧
         report.failed = failedOf recs) ∧
    (∀ (e : CsvEntry) (ans : List Answer) (msg : String),
       e.parse = Except.error msg →
       process_entry s e ans
         = (Except.ok (EntryRecord.failedRec e.name msg), ans, [])) ∧
    (∀ (e : CsvEntry) (ans : List Answer),
       e.parse = Except.ok [] →
       process_entry s e ans
         = (Except.ok (EntryRecord.skippedRec e.name), ans, [])) ∧
    (∀ (e : CsvEntry) (ans : List Answer) (t : SpotifyTrack)
       (ts : List SpotifyTrack),
       e.parse = Except.ok (t :: ts) →
       (_ask_yes_no true ans).1 = false →
       process_entry s e ans
         = (Except.ok (EntryRecord.skippedRec e.name),
            (_ask_yes_no true ans).2, [])) ∧
    (∀ (e : CsvEntry) (ans : List Answer) (t : SpotifyTrack)
       (ts : List SpotifyTrack) (pname : String) (ans2 ans3 : List Answer)
       (modeStr : String)
       (runRes : Except PyErr (List ImportResult × Playlist))
       (ans4 : List Answer) (ev : List Event),
       e.parse = Except.ok (t :: ts) →
       (_ask_yes_no true ans).1 = true →
       _prompt_playlist_name (_csv_to_default_name e.stem)
           (_ask_yes_no true ans).2 = (Except.ok pname, ans2) →
       _ask_choice ["all", "review"] "all" ans2 = (modeStr, ans3) →
       (if modeStr = "review"
        then import_individually s (t :: ts) pname ans3
        else ((import_all s (t :: ts) pname).1, ans3,
              (import_all s (t :: ts) pname).2)) = (runRes, ans4, ev) →
       ((∀ rp, runRes = Except.ok rp →
           process_entry s e ans
             = (Except.ok (EntryRecord.importedRec pname),
                (_ask_yes_no false ans4).2, ev)) ∧
        (runRes = Except.error PyErr.keyboardInterrupt →
           (_ask_yes_no true ans4).1 = true →
           process_entry s e ans
             = (Except.ok (EntryRecord.skippedRec pname),
                (_ask_yes_no true ans4).2, ev)) ∧
        (runRes = Except.error PyErr.keyboardInterrupt →
           (_ask_yes_no true ans4).1 = false →
           process_entry s e ans
             = (Except.error PyErr.keyboardInterrupt,
                (_ask_yes_no true ans4).2, ev)) ∧
        (∀ m, runRes = Except.error (PyErr.exc m) →
           process_entry s e ans
             = (Except.ok (EntryRecord.failedRec pname m), ans4, ev)))) := by
  refine ⟨?_, ?_, ?_, ?_, ?_⟩
  · intro entries ans report h
    rcases hloop : process_folder_loop s entries ans [] [] []
      with err | ⟨imp, skp, fld⟩
    · simp only [process_folder, hloop] at h
      simp at h
    · simp only [process_folder, hloop, Except.ok.injEq] at h
      obtain ⟨recs, hlen, h1, h2, h3⟩ := process_folder_loop_ok s entries
        ans [] [] [] imp skp fld hloop
      simp only [List.nil_append] at h1 h2 h3
      refine ⟨by rw [← h], ?_, recs, hlen, by rw [← h, h1], by rw [← h, h2],
        by rw [← h, h3]⟩
      rw [← h]
      simp only [h1, h2, h3]
      rw [recordOf_length recs, hlen]
  · intro e ans msg hp
    unfold process_entry
    simp only [hp]
  · intro e ans hp
    unfold process_entry
    simp only [hp]
  · intro e ans t ts hp hdo
    unfold process_entry
    simp only [hp, hdo, reduceIte]
  · intro e ans t ts pname ans2 ans3 modeStr runRes ans4 ev hp hdo hname
      hmode hrun
    have hpe := process_entry_run s e ans t ts pname ans2 ans3 modeStr hp
      hdo hname hmode
    rw [hrun] at hpe
    refine ⟨?_, ?_, ?_, ?_⟩
    · intro rp hok
      rw [hok] at hpe
      exact hpe
    · intro hki hcont
      rw [hki] at hpe
      rw [hpe]
      simp [hcont]
    · intro hki hcont
      rw [hki] at hpe
      rw [hpe]
      simp [hcont]
    · intro m hexc
      rw [hexc] at hpe
      exact hpe

/-- The spec's three-file folder example: a zero-track file, a declined
file, and a successfully imported file. -/
def entryA : CsvEntry := ⟨"a.csv", "a", Except.ok []⟩

/-- Folder example entry B: parses to one track, user declines. -/
def entryB : CsvEntry := ⟨"b.csv", "b", Except.ok [trackNoIsrc]⟩

/-- Folder example entry C: parses to one code-matched track. -/
def entryC : CsvEntry := ⟨"c.csv", "c", Except.ok [trackWithIsrc]⟩

/-- The user input of the folder example: decline B, confirm C, accept
the default name and mode. -/
def folderAnswers : List Answer :=
  [Answer.text "n", Answer.text "y", Answer.text "", Answer.text ""]

/-- The report the folder example produces. -/
def folderReportW : FolderReport := ⟨3, ["C"], ["a.csv", "b.csv"], []⟩

/-- Witness for C9 on the spec's three-file example. -/
theorem c9_folder_report_partition_witness :
    process_folder hitSession [entryA, entryB, entryC] folderAnswers
        = Except.ok folderReportW ∧
    folderReportW.total = 3 ∧
    folderReportW.imported.length + folderReportW.skipped.length +
        folderReportW.failed.length = 3 :=
  ⟨by rfl,
   ((c9_folder_report_partition hitSession).1 [entryA, entryB, entryC]
      folderAnswers folderReportW (by rfl)).1,
   ((c9_folder_report_partition hitSession).1 [entryA, entryB, entryC]
      folderAnswers folderReportW (by rfl)).2.1⟩

end SpotifyToTidal
